import Mathlib

/-!
# Verification of the docker-sync synchronization engine

A shallow embedding of the docker-sync repository (package `syncer` in
`src/syncer/syncer.go`, package `filewatcher` in `src/unnamed/part_002`,
and the driver in `src/cmd/root.go`).

The Docker daemon is external to the program, so every Docker API call is
modelled through an oracle environment (`DockerEnv`): each field gives the
response the daemon would return for that call.  Every syncer operation is
embedded as a pure function that returns the list of Docker API calls it
issues (its trace) together with its Go-style `(value, error)` result and,
where the operation mutates the `Syncer` struct, the updated struct.
-/

namespace DockerSync

/-- Go-style fallible result: `error` is Go's non-nil error. -/
abbrev Res (α : Type) := Except String α

/-- Go struct `mount.Mount`: only the fields the program reads or writes. -/
structure Mount where
  type : String
  source : String
  target : String
deriving DecidableEq, Repr

/-- The parts of `swarm.ServiceSpec` the program touches:
`Spec.TaskTemplate.ForceUpdate` and `Spec.TaskTemplate.ContainerSpec.Mounts`.
`ForceUpdate` is a Go `uint64`, modelled as a `Nat` below `2 ^ 64`; the
one arithmetic operation on it (`ForceUpdate++`) is taken modulo `2 ^ 64`
where it is performed, reproducing the silent wraparound. -/
structure ServiceSpec where
  forceUpdate : Nat
  mounts : List Mount
deriving DecidableEq, Repr

/-- The parts of the `ServiceInspectWithRaw` response the program reads. -/
structure ServiceInfo where
  version : Nat
  spec : ServiceSpec
deriving DecidableEq, Repr

/-- The parts of the `ContainerInspect` response the program reads:
`HostConfig.Mounts` (the `Config`/`HostConfig` fields are otherwise copied
verbatim into the replacement container). -/
structure ContainerInfo where
  mounts : List Mount
deriving DecidableEq, Repr

/-- Type `TargetType` from syncer.go. -/
inductive TargetType where
  | Container
  | Service
deriving DecidableEq, Repr

/-- The fields of the `Syncer` struct the sync logic reads or writes
(client, host and logger are connection/logging plumbing; the
uuid-generated names land in `temporaryContainer`/`temporaryVolume`). -/
structure Syncer where
  target : String
  targetType : TargetType
  targetPath : String
  restartTarget : Bool
  temporaryContainer : String
  temporaryVolume : String
  identifier : String
deriving DecidableEq, Repr

/-- Method `getTemporaryVolumePath` (syncer.go:74-76). -/
def Syncer.getTemporaryVolumePath (s : Syncer) : String :=
  "/" ++ s.identifier ++ "-data"

/-- One Docker API call issued by the syncer, with the arguments the
program passes. -/
inductive DockerCall where
  | containerList (filterKey filterVal : String)
  | serviceList (filterKey filterVal : String)
  | taskList (service : String)
  | taskInspect (task : String)
  | containerInspect (id : String)
  | containerStop (id : String) (timeoutSeconds : Nat)
  | containerCreate (mounts : List Mount)
  | containerRemove (id : String) (force : Bool)
  | containerStart (id : String)
  | volumeRemove (name : String) (force : Bool)
  | serviceInspect (id : String)
  | serviceUpdate (id : String) (version : Nat) (spec : ServiceSpec)
  | copyToContainer (containerId : String) (destPath : String)
deriving DecidableEq, Repr

/-- Oracle for the Docker daemon: the response each API call would get. -/
structure DockerEnv where
  containerList : String → String → Res (List String)
  serviceList : String → String → Res (List String)
  taskList : String → Res (List String)
  taskInspect : String → Res String
  containerInspect : String → Res ContainerInfo
  containerStop : String → Res Unit
  containerCreate : List Mount → Res String
  containerRemove : String → Bool → Res Unit
  containerStart : String → Res Unit
  volumeRemove : String → Res Unit
  serviceInspect : String → Res ServiceInfo
  serviceUpdate : String → Nat → ServiceSpec → Res Unit
  copyTo : String → String → Res Unit

/-- Constant `stopTimeoutInSeconds` from syncer.go. -/
def stopTimeoutInSeconds : Nat := 10

/-- Width of Go's `uint64`, the type of `TaskSpec.ForceUpdate`: its
increment wraps modulo this value. -/
def uint64Size : Nat := 2 ^ 64

/-- The mount-splitting loop of `updateTargetService` (syncer.go:422-430):
walk the inspected mounts, dropping every mount whose source is the
temporary (relay) volume and recording whether one was present. -/
def splitTempMounts (tempVolume : String) (mounts : List Mount) : List Mount × Bool :=
  mounts.foldl
    (fun acc m =>
      if m.source = tempVolume then (acc.1, true) else (acc.1 ++ [m], acc.2))
    ([], false)

/-- The relay mount appended by `updateTargetService` /
`recreateTargetContainer`: a volume mount of the temporary volume at the
configured target path. -/
def relayMount (tempVolume targetPath : String) : Mount :=
  { type := "volume", source := tempVolume, target := targetPath }

/-- The service spec submitted by `updateTargetService` (syncer.go:419-443)
as a function of the inspected spec: increment `ForceUpdate` (a `uint64`
increment, so modulo `2 ^ 64`), strip every relay-volume mount, and append
the fresh relay mount when `mountTemporaryVolume` is set. -/
def updatedServiceSpec (tempVolume targetPath : String) (mountTemporaryVolume : Bool)
    (spec : ServiceSpec) : ServiceSpec :=
  let mounts := (splitTempMounts tempVolume spec.mounts).1
  if mountTemporaryVolume then
    { forceUpdate := (spec.forceUpdate + 1) % uint64Size
      mounts := mounts ++ [relayMount tempVolume targetPath] }
  else
    { forceUpdate := (spec.forceUpdate + 1) % uint64Size, mounts := mounts }

/-- Number of relay (temporary-volume) mounts in a mount list. -/
def countRelay (tempVolume : String) (mounts : List Mount) : Nat :=
  (mounts.filter (fun m => m.source = tempVolume)).length

/-- Method `findContainerById` (syncer.go:237-248): list containers filtered by id;
an empty listing yields the empty string, otherwise the first id. -/
def findContainerById (env : DockerEnv) (needle : String) : List DockerCall × Res String :=
  ([.containerList "id" needle],
    match env.containerList "id" needle with
    | .error e => .error ("failed to list containers: " ++ e)
    | .ok [] => .ok ""
    | .ok (c :: _) => .ok c)

/-- Method `findContainerByName` (syncer.go:250-261). -/
def findContainerByName (env : DockerEnv) (needle : String) : List DockerCall × Res String :=
  ([.containerList "name" needle],
    match env.containerList "name" needle with
    | .error e => .error ("failed to list containers: " ++ e)
    | .ok [] => .ok ""
    | .ok (c :: _) => .ok c)

/-- Method `findTargetContainer` (syncer.go:263-276): id lookup first, name lookup
only when the id lookup found nothing. -/
def findTargetContainer (env : DockerEnv) (s : Syncer) : List DockerCall × Res String :=
  let r₁ := findContainerById env s.target
  match r₁.2 with
  | .error e =>
      (r₁.1, .error ("failed to find container by ID or name " ++ s.target ++ ": " ++ e))
  | .ok id =>
      if id ≠ "" then (r₁.1, .ok id)
      else
        let r₂ := findContainerByName env s.target
        match r₂.2 with
        | .error e =>
            (r₁.1 ++ r₂.1,
              .error ("failed to find container by ID or name " ++ s.target ++ ": " ++ e))
        | .ok containerId => (r₁.1 ++ r₂.1, .ok containerId)

/-- Method `findServiceById` (syncer.go:278-289). -/
def findServiceById (env : DockerEnv) (needle : String) : List DockerCall × Res String :=
  ([.serviceList "id" needle],
    match env.serviceList "id" needle with
    | .error e => .error ("failed to list services: " ++ e)
    | .ok [] => .ok ""
    | .ok (s :: _) => .ok s)

/-- Method `findServiceByName` (syncer.go:291-302). -/
def findServiceByName (env : DockerEnv) (needle : String) : List DockerCall × Res String :=
  ([.serviceList "name" needle],
    match env.serviceList "name" needle with
    | .error e => .error ("failed to list services: " ++ e)
    | .ok [] => .ok ""
    | .ok (s :: _) => .ok s)

/-- Method `findTargetService` (syncer.go:304-313): id lookup first, then name. -/
def findTargetService (env : DockerEnv) (s : Syncer) : List DockerCall × Res String :=
  let r₁ := findServiceById env s.target
  match r₁.2 with
  | .error e =>
      (r₁.1, .error ("failed to find service by ID or name " ++ s.target ++ ": " ++ e))
  | .ok id =>
      if id ≠ "" then (r₁.1, .ok id)
      else
        let r₂ := findServiceByName env s.target
        (r₁.1 ++ r₂.1, r₂.2)

/-- The target-resolution phase of `Init` (syncer.go:116-135): resolve the
service first; fall back to a container lookup only when the service lookup
returned no match; fail when neither matches.  (`Connect` and the
temporary-container provisioning that follow in `Init` are connection
plumbing and resource creation, outside the resolution this embeds.) -/
def initResolveTarget (env : DockerEnv) (s : Syncer) : List DockerCall × Res Syncer :=
  let rs := findTargetService env s
  match rs.2 with
  | .error e => (rs.1, .error ("failed to find service " ++ s.target ++ ": " ++ e))
  | .ok service =>
      if service = "" then
        let rc := findTargetContainer env s
        match rc.2 with
        | .error e =>
            (rs.1 ++ rc.1, .error ("failed to find container " ++ s.target ++ ": " ++ e))
        | .ok c =>
            if c = "" then
              (rs.1 ++ rc.1, .error ("failed to find container or service " ++ s.target))
            else
              (rs.1 ++ rc.1, .ok { s with targetType := .Container, target := c })
      else
        (rs.1, .ok { s with targetType := .Service, target := service })

/-- Method `getFirstRunningTaskForTargetService` (syncer.go:315-329). -/
def getFirstRunningTaskForTargetService (env : DockerEnv) (s : Syncer) :
    List DockerCall × Res String :=
  ([.taskList s.target],
    match env.taskList s.target with
    | .error e => .error ("failed to list tasks: " ++ e)
    | .ok [] => .ok ""
    | .ok (t :: _) => .ok t)

/-- Method `getTaskContainerId` (syncer.go:331-337). -/
def getTaskContainerId (env : DockerEnv) (task : String) : List DockerCall × Res String :=
  ([.taskInspect task],
    match env.taskInspect task with
    | .error e => .error ("failed to inspect task " ++ task ++ ": " ++ e)
    | .ok cid => .ok cid)

/-- Method `getContainerIdForTargetService` (syncer.go:339-352). -/
def getContainerIdForTargetService (env : DockerEnv) (s : Syncer) :
    List DockerCall × Res String :=
  let r₁ := getFirstRunningTaskForTargetService env s
  match r₁.2 with
  | .error e =>
      (r₁.1,
        .error ("failed to get first running task for service " ++ s.target ++ ": " ++ e))
  | .ok task =>
      if task = "" then (r₁.1, .ok "")
      else
        let r₂ := getTaskContainerId env task
        match r₂.2 with
        | .error e =>
            (r₁.1 ++ r₂.1, .error ("failed to get container ID for task " ++ task ++ ": " ++ e))
        | .ok cid => (r₁.1 ++ r₂.1, .ok cid)

/-- Method `recreateTargetContainer` (syncer.go:354-411): inspect, stop with the
10-second timeout, build the replacement's mounts (relay mounts stripped,
fresh relay mount appended when `mountTemporaryVolume`), create the
replacement, set `syncer.target` to the new id, then remove `syncer.target`
(note: the field was just rebound, so the removal argument is the new id,
exactly as in the source) and start the new container. -/
def recreateTargetContainer (env : DockerEnv) (s : Syncer) (mountTemporaryVolume : Bool) :
    List DockerCall × Res Unit × Syncer :=
  match env.containerInspect s.target with
  | .error e =>
      ([.containerInspect s.target],
        .error ("failed to inspect container " ++ s.target ++ ": " ++ e), s)
  | .ok containerInfo =>
      match env.containerStop s.target with
      | .error e =>
          ([.containerInspect s.target, .containerStop s.target stopTimeoutInSeconds],
            .error ("failed to stop container " ++ s.target ++ ": " ++ e), s)
      | .ok _ =>
          let mounts := containerInfo.mounts.filter (fun m => m.source ≠ s.temporaryVolume)
          let newMounts :=
            if mountTemporaryVolume then mounts ++ [relayMount s.temporaryVolume s.targetPath]
            else mounts
          let trace₀ := [DockerCall.containerInspect s.target,
            .containerStop s.target stopTimeoutInSeconds, .containerCreate newMounts]
          match env.containerCreate newMounts with
          | .error e => (trace₀, .error ("failed to create new container: " ++ e), s)
          | .ok newId =>
              let s₁ := { s with target := newId }
              match env.containerRemove s₁.target false with
              | .error e =>
                  (trace₀ ++ [.containerRemove s₁.target false],
                    .error ("failed to remove old container " ++ s₁.target ++ ": " ++ e), s₁)
              | .ok _ =>
                  match env.containerStart newId with
                  | .error e =>
                      (trace₀ ++ [.containerRemove s₁.target false, .containerStart newId],
                        .error ("failed to start new container: " ++ e), s₁)
                  | .ok _ =>
                      (trace₀ ++ [.containerRemove s₁.target false, .containerStart newId],
                        .ok (), s₁)

/-- Method `updateTargetService` (syncer.go:413-463): inspect the service, build
the new spec via `updatedServiceSpec`, look up the backing container when a
relay mount was present (the error is discarded), submit the update, and
finally force-remove that old container (its error is discarded too). -/
def updateTargetService (env : DockerEnv) (s : Syncer) (mountTemporaryVolume : Bool) :
    List DockerCall × Res Unit :=
  match env.serviceInspect s.target with
  | .error e =>
      ([.serviceInspect s.target],
        .error ("failed to inspect service " ++ s.target ++ ": " ++ e))
  | .ok serviceInfo =>
      let spec := updatedServiceSpec s.temporaryVolume s.targetPath mountTemporaryVolume
        serviceInfo.spec
      let hadTempVolume := (splitTempMounts s.temporaryVolume serviceInfo.spec.mounts).2
      let rCid :=
        if hadTempVolume then
          let r := getContainerIdForTargetService env s
          (r.1, match r.2 with | .ok c => c | .error _ => "")
        else ([], "")
      let trace₀ := [DockerCall.serviceInspect s.target] ++ rCid.1
        ++ [.serviceUpdate s.target serviceInfo.version spec]
      match env.serviceUpdate s.target serviceInfo.version spec with
      | .error e => (trace₀, .error ("failed to update service " ++ s.target ++ ": " ++ e))
      | .ok _ =>
          (trace₀
            ++ (if hadTempVolume ∧ rCid.2 ≠ "" then [DockerCall.containerRemove rCid.2 true]
                else []),
            .ok ())

/-- The delivery step of `copyToContainer` (syncer.go:537-544): stream the
archive into the target container rooted at `/`.  The archive construction
itself is pure and is embedded separately as `copyHeaderNames`; the oracle
`copyTo` covers every failure mode of the copy (archive construction or
transport), which is all `Copy` observes of it. -/
def copyToContainerCall (env : DockerEnv) (containerId destPath : String) :
    List DockerCall × Res Unit :=
  ([.copyToContainer containerId destPath],
    match env.copyTo containerId destPath with
    | .error e => .error ("failed to copy to container: " ++ e)
    | .ok _ => .ok ())

/-- Method `Copy` (syncer.go:147-196): the exhaustive four-way branch over
`(targetType, restartTarget)`, exactly the if/else-if chain of the source.
Returns the trace, the result, and the possibly rebound `Syncer` (only the
Container+restart branch rebinds). -/
def Copy (env : DockerEnv) (s : Syncer) : List DockerCall × Res Unit × Syncer :=
  match s.targetType, s.restartTarget with
  | .Container, false =>
    let rf := findTargetContainer env s
    match rf.2 with
    | .error e => (rf.1, .error ("failed to find container " ++ s.target ++ ": " ++ e), s)
    | .ok c =>
        let rc := copyToContainerCall env c s.targetPath
        match rc.2 with
        | .error e =>
            (rf.1 ++ rc.1, .error ("failed to copy to container " ++ c ++ ": " ++ e), s)
        | .ok _ => (rf.1 ++ rc.1, .ok (), s)
  | .Container, true =>
    let rf := findTargetContainer env s
    match rf.2 with
    | .error e => (rf.1, .error ("failed to find container " ++ s.target ++ ": " ++ e), s)
    | .ok c =>
        let rc := copyToContainerCall env c s.targetPath
        match rc.2 with
        | .error e =>
            (rf.1 ++ rc.1, .error ("failed to copy to container " ++ c ++ ": " ++ e), s)
        | .ok _ =>
            let rr := recreateTargetContainer env s true
            match rr.2.1 with
            | .error e =>
                (rf.1 ++ rc.1 ++ rr.1,
                  .error ("failed to restart container " ++ c ++ ": " ++ e), rr.2.2)
            | .ok _ => (rf.1 ++ rc.1 ++ rr.1, .ok (), rr.2.2)
  | .Service, false =>
    let rg := getContainerIdForTargetService env s
    match rg.2 with
    | .error e =>
        (rg.1, .error ("failed to container ID for service " ++ s.target ++ ": " ++ e), s)
    | .ok c =>
        let rc := copyToContainerCall env c s.targetPath
        match rc.2 with
        | .error e =>
            (rg.1 ++ rc.1, .error ("failed to copy to container " ++ c ++ ": " ++ e), s)
        | .ok _ => (rg.1 ++ rc.1, .ok (), s)
  | .Service, true =>
    let rc := copyToContainerCall env s.temporaryContainer s.getTemporaryVolumePath
    match rc.2 with
    | .error e =>
        (rc.1,
          .error ("failed to copy to temporary container " ++ s.temporaryContainer ++ ": " ++ e),
          s)
    | .ok _ =>
        let ru := updateTargetService env s true
        match ru.2 with
        | .error e =>
            (rc.1 ++ ru.1, .error ("failed to restart service " ++ s.target ++ ": " ++ e), s)
        | .ok _ => (rc.1 ++ ru.1, .ok (), s)

/-- Method `Cleanup` (syncer.go:198-235): unconditionally recreate the target
container (Container targets) or force-update the service (Service
targets), both without the temporary volume; then force-remove the tracked
temporary container, remove the temporary volume, and clear the two
tracked names.  Every removal error is propagated as a failure. -/
def Cleanup (env : DockerEnv) (s : Syncer) : List DockerCall × Res Unit × Syncer :=
  let rRestart : List DockerCall × Res Unit × Syncer :=
    if s.targetType = .Container then
      let rr := recreateTargetContainer env s false
      match rr.2.1 with
      | .error e =>
          (rr.1,
            .error ("failed to restart target container " ++ rr.2.2.target ++ ": " ++ e),
            rr.2.2)
      | .ok _ => (rr.1, .ok (), rr.2.2)
    else
      let ru := updateTargetService env s false
      match ru.2 with
      | .error e => (ru.1, .error ("failed to restart target service: " ++ e), s)
      | .ok _ => (ru.1, .ok (), s)
  match rRestart.2.1 with
  | .error e => (rRestart.1, .error e, rRestart.2.2)
  | .ok _ =>
      let s₁ := rRestart.2.2
      let t₁ := rRestart.1 ++ [DockerCall.containerRemove s₁.temporaryContainer true]
      match env.containerRemove s₁.temporaryContainer true with
      | .error e =>
          (t₁,
            .error ("failed to remove temporary container " ++ s₁.temporaryContainer ++ ": " ++ e),
            s₁)
      | .ok _ =>
          let t₂ := t₁ ++ [DockerCall.volumeRemove s₁.temporaryVolume true]
          match env.volumeRemove s₁.temporaryVolume with
          | .error e =>
              (t₂,
                .error ("failed to remove temporary volume " ++ s₁.temporaryVolume ++ ": " ++ e),
                s₁)
          | .ok _ =>
              (t₂, .ok (), { s₁ with temporaryContainer := "", temporaryVolume := "" })

/-! ## The file watcher (package `filewatcher`)

`FileWatcher.Watch` keeps a map from path to pending `time.AfterFunc`
timer.  Every incoming notification stops any pending timer for its exact
path and installs a fresh one with the 100 ms debounce interval; a timer
that reaches its deadline uninterrupted calls `processEvent` on the
notification that installed it.  The mutex serializes map access, so the
behaviour on a totally ordered sequence of timestamped notifications is
deterministic: the timer installed by a notification fires exactly when no
later notification on the same path arrives strictly before its deadline.
Time is modelled in milliseconds as `Nat`; a same-path notification
arriving exactly at the deadline finds the timer already fired. -/

/-- An fsnotify operation bitmask, restricted to the flags the watcher
tests (`Create`, `Write`, `Remove`, `Rename`). -/
structure Op where
  create : Bool
  write : Bool
  remove : Bool
  rename : Bool
deriving DecidableEq, Repr

/-- A timestamped fsnotify notification (`fsnotify.Event` plus its arrival
time on the watcher's channel). -/
structure Notif where
  time : Nat
  name : String
  op : Op
deriving DecidableEq, Repr

/-- What `os.Stat` reports for a path. -/
inductive FileKind where
  | dir
  | file
deriving DecidableEq, Repr

/-- The debounce interval of `FileWatcher.Watch`: 100 ms. -/
def debounceInterval : Nat := 100

/-- The timer installed by `n` fires uncontested iff no later notification
on the same path arrives strictly before `n.time + interval`. -/
def firesUncontested (interval : Nat) (n : Notif) (later : List Notif) : Bool :=
  later.all (fun m => m.name ≠ n.name ∨ n.time + interval ≤ m.time)

/-- The notifications of a (chronologically ordered) sequence whose
debounce timers fire, in firing order. -/
def debouncedNotifs (interval : Nat) : List Notif → List Notif
  | [] => []
  | n :: rest =>
      if firesUncontested interval n rest then n :: debouncedNotifs interval rest
      else debouncedNotifs interval rest

/-- What a fired timer produces via `processEvent`. -/
inductive WatchOutput where
  | event (n : Notif)
  | fsError (e : String)
  | addWatch (path : String)
deriving DecidableEq, Repr

/-- Method `FileWatcher.processEvent` (part_002:81-102): a `Remove` notification
is forwarded to the event stream unconditionally; otherwise the path is
stat-ed (a failure goes to the error stream), a newly created directory
triggers a recursive watch registration, and a file notification carrying
`Create`, `Write` or `Rename` is forwarded. -/
def processEvent (statF : String → Res FileKind) (n : Notif) : Option WatchOutput :=
  if n.op.remove then some (.event n)
  else
    match statF n.name with
    | .error e => some (.fsError e)
    | .ok .dir => if n.op.create then some (.addWatch n.name) else none
    | .ok .file =>
        if n.op.create ∨ n.op.write ∨ n.op.rename then some (.event n) else none

/-- The outputs `FileWatcher.Watch` produces for an ordered notification
sequence: each uncontested timer firing runs `processEvent`. -/
def watchOutputs (interval : Nat) (statF : String → Res FileKind)
    (notifs : List Notif) : List WatchOutput :=
  (debouncedNotifs interval notifs).filterMap (processEvent statF)

/-! ## The tar archive built by `copyToContainer`

`copyToContainer` (syncer.go:465-545) writes one tar header per source
entry; only the header names matter for where files land.  Host paths are
rendered with the host separator `sep`; `filepath.Rel` yields `"."` for
the walk root and separator-joined components otherwise.  `filepathJoin`
covers `filepath.Join` on the shapes the function produces (a clean base
and a clean relative path); composed with `toSlash` it agrees with Go's
`ToSlash ∘ Join` on those shapes for either separator convention. -/

/-- Go function `filepath.ToSlash`: replace every host separator with `/`. -/
def toSlash (sep : Char) (s : String) : String :=
  ⟨s.data.map (fun c => if c = sep then '/' else c)⟩

/-- Go function `filepath.Join` on a clean base and a clean relative path. -/
def filepathJoin (sep : Char) (base rel : String) : String :=
  if rel = "." then base else base ++ ⟨[sep]⟩ ++ rel

/-- One entry met by `filepath.Walk`: its path relative to the walk root
(in host convention; `"."` for the root itself) and whether it is a
directory (directories get a header but no contents). -/
structure WalkEntry where
  relPath : String
  isDir : Bool
deriving DecidableEq, Repr

/-- What `os.Stat`/`filepath.Walk` report for the source path: a single
file with its base name, or a directory with its walk entries in order. -/
inductive SourceInfo where
  | file (baseName : String)
  | dir (entries : List WalkEntry)
deriving DecidableEq, Repr

/-- The tar header names `copyToContainer` produces (syncer.go:506-527):
one header per walk entry for a directory source, a single header for a
file source, each joined onto the destination path and slash-normalized. -/
def copyHeaderNames (sep : Char) (containerPath : String) (src : SourceInfo) : List String :=
  match src with
  | .file baseName => [toSlash sep (filepathJoin sep containerPath baseName)]
  | .dir entries => entries.map (fun e => toSlash sep (filepathJoin sep containerPath e.relPath))

/-! ## Call classifiers and concrete test fixtures -/

/-- Is this call a container listing (the container-lookup side of
resolution)? -/
def isContainerListCall : DockerCall → Bool
  | .containerList _ _ => true
  | _ => false

/-- Is this call part of a restart (container recreation) or of a service
update? -/
def isRestartCall : DockerCall → Bool
  | .containerStop _ _ => true
  | .containerCreate _ => true
  | .containerStart _ => true
  | .serviceUpdate _ _ _ => true
  | _ => false

/-- The specs carried by the `ServiceUpdate` calls of a trace. -/
def serviceUpdateSpecs (trace : List DockerCall) : List ServiceSpec :=
  trace.filterMap fun c =>
    match c with
    | .serviceUpdate _ _ spec => some spec
    | _ => none

/-- An all-success Docker daemon, used by the concrete witnesses. -/
def okEnv : DockerEnv where
  containerList := fun _ _ => .ok ["c1"]
  serviceList := fun _ _ => .ok ["s1"]
  taskList := fun _ => .ok ["t1"]
  taskInspect := fun _ => .ok "tc1"
  containerInspect := fun _ => .ok { mounts := [] }
  containerStop := fun _ => .ok ()
  containerCreate := fun _ => .ok "new1"
  containerRemove := fun _ _ => .ok ()
  containerStart := fun _ => .ok ()
  volumeRemove := fun _ => .ok ()
  serviceInspect := fun _ => .ok { version := 5, spec := { forceUpdate := 7, mounts := [] } }
  serviceUpdate := fun _ _ _ => .ok ()
  copyTo := fun _ _ => .ok ()

/-- A Container-target syncer with the restart flag set. -/
def sContainerRestart : Syncer :=
  { target := "old", targetType := .Container, targetPath := "/app",
    restartTarget := true, temporaryContainer := "tmpc", temporaryVolume := "vol",
    identifier := "docker-sync" }

/-- A Container-target syncer without the restart flag. -/
def sContainerPlain : Syncer :=
  { sContainerRestart with restartTarget := false }

/-- A Service-target syncer with the restart flag set. -/
def sServiceRestart : Syncer :=
  { sContainerRestart with targetType := .Service, target := "svc" }

/-! ## Helper lemmas -/

theorem splitTempMounts_foldl (tempVolume : String) (mounts : List Mount)
    (acc : List Mount × Bool) :
    (mounts.foldl
      (fun acc m =>
        if m.source = tempVolume then (acc.1, true) else (acc.1 ++ [m], acc.2))
      acc).1
      = acc.1 ++ mounts.filter (fun m => m.source ≠ tempVolume) := by
  induction mounts generalizing acc with
  | nil => simp
  | cons m rest ih =>
    by_cases h : m.source = tempVolume
    · simp [List.foldl_cons, h, ih, List.filter_cons]
    · simp [List.foldl_cons, h, ih, List.filter_cons]

theorem splitTempMounts_fst (tempVolume : String) (mounts : List Mount) :
    (splitTempMounts tempVolume mounts).1
      = mounts.filter (fun m => m.source ≠ tempVolume) := by
  simpa using splitTempMounts_foldl tempVolume mounts ([], false)

theorem countRelay_splitTempMounts (tempVolume : String) (mounts : List Mount) :
    countRelay tempVolume (splitTempMounts tempVolume mounts).1 = 0 := by
  rw [splitTempMounts_fst]
  simp only [countRelay, List.filter_filter, List.length_eq_zero]
  apply List.filter_eq_nil_iff.2
  intro m _
  by_cases h : m.source = tempVolume <;> simp [h]

theorem countRelay_append (tempVolume : String) (xs ys : List Mount) :
    countRelay tempVolume (xs ++ ys)
      = countRelay tempVolume xs + countRelay tempVolume ys := by
  simp [countRelay, List.filter_append]

theorem countRelay_updatedServiceSpec (tempVolume targetPath : String)
    (flag : Bool) (spec : ServiceSpec) :
    countRelay tempVolume (updatedServiceSpec tempVolume targetPath flag spec).mounts
      = if flag then 1 else 0 := by
  cases flag with
  | false => simpa [updatedServiceSpec] using countRelay_splitTempMounts tempVolume spec.mounts
  | true =>
    simp only [updatedServiceSpec, if_pos]
    rw [countRelay_append, countRelay_splitTempMounts]
    simp [countRelay, relayMount]

/-! ## C1: at most one relay mount survives any number of cycles -/

/-- C1.  For every sequence of `n ≥ 1` restart-triggering sync cycles on a
service target, the task-template mount list submitted by the `n`-th
`updateTargetService` contains at most one relay (temporary-volume) mount:
each cycle first strips every mount whose source is the relay volume from
the inspected spec and only then appends the single new relay mount. -/
theorem relay_mount_at_most_one (tempVolume targetPath : String) (spec : ServiceSpec)
    (n : Nat) (h : 1 ≤ n) :
    countRelay tempVolume
      ((fun sp => updatedServiceSpec tempVolume targetPath true sp)^[n] spec).mounts ≤ 1 := by
  obtain ⟨m, rfl⟩ : ∃ m, n = m + 1 := ⟨n - 1, (Nat.succ_pred_eq_of_pos h).symm⟩
  rw [Function.iterate_succ_apply']
  rw [countRelay_updatedServiceSpec]
  simp

/-- Witness for C1 at a concrete input: three successive cycles starting
from a spec that already carries two stale relay mounts. -/
theorem relay_mount_at_most_one_witness :
    1 ≤ 3 ∧
    countRelay "vol"
      ((fun sp => updatedServiceSpec "vol" "/app" true sp)^[3]
        { forceUpdate := 0,
          mounts := [relayMount "vol" "/a", relayMount "vol" "/b",
            { type := "bind", source := "src", target := "/x" }] }).mounts ≤ 1 :=
  ⟨by decide, relay_mount_at_most_one "vol" "/app" _ 3 (by decide)⟩

/-! ## C8: the force-update counter is incremented by exactly one -/

theorem serviceUpdateSpecs_append (t₁ t₂ : List DockerCall) :
    serviceUpdateSpecs (t₁ ++ t₂) = serviceUpdateSpecs t₁ ++ serviceUpdateSpecs t₂ := by
  simp [serviceUpdateSpecs, List.filterMap_append]

theorem getContainerId_trace (env : DockerEnv) (s : Syncer) :
    (getContainerIdForTargetService env s).1 = [.taskList s.target]
    ∨ ∃ t, (getContainerIdForTargetService env s).1
        = [.taskList s.target, .taskInspect t] := by
  unfold getContainerIdForTargetService getFirstRunningTaskForTargetService getTaskContainerId
  cases env.taskList s.target with
  | error e => simp
  | ok l =>
    cases l with
    | nil => simp
    | cons t ts =>
      simp only
      split
      · simp
      · cases env.taskInspect t <;> simp

/-- A daemon whose inspected service carries the maximal `uint64`
force-update counter. -/
def wrapEnv : DockerEnv :=
  { okEnv with
    serviceInspect := fun _ =>
      .ok { version := 5, spec := { forceUpdate := uint64Size - 1, mounts := [] } } }

/-- C8 counterexample.  `ForceUpdate` is a Go `uint64`, so `ForceUpdate++`
wraps: when the inspection reports `2 ^ 64 - 1`, the spec submitted by
`updateTargetService` carries counter `0`, which is not one greater than
the inspected value. -/
theorem forceUpdate_wraps_cex :
    serviceUpdateSpecs (updateTargetService wrapEnv sServiceRestart true).1
      = [{ forceUpdate := 0, mounts := [relayMount "vol" "/app"] }]
    ∧ (0 : Nat) ≠ (uint64Size - 1) + 1 := by
  constructor
  · decide
  · simp [uint64Size]

/-- C8 amended.  For every restart-triggering (and every cleanup) service
update, the spec submitted to `ServiceUpdate` is exactly
`updatedServiceSpec` of the spec read from the inspection,
`updateTargetService` issues exactly one `ServiceUpdate` call, and the
submitted force-update counter is the inspected value plus one modulo
`2 ^ 64` — exactly one greater whenever the `uint64` increment does not
wrap, i.e. whenever the inspected value is below `2 ^ 64 - 1`. -/
theorem forceUpdate_incremented_mod_uint64 (env : DockerEnv) (s : Syncer) (flag : Bool)
    (info : ServiceInfo) (h : env.serviceInspect s.target = .ok info) :
    serviceUpdateSpecs (updateTargetService env s flag).1
      = [updatedServiceSpec s.temporaryVolume s.targetPath flag info.spec]
    ∧ (updatedServiceSpec s.temporaryVolume s.targetPath flag info.spec).forceUpdate
      = (info.spec.forceUpdate + 1) % uint64Size
    ∧ (info.spec.forceUpdate + 1 < uint64Size →
        (updatedServiceSpec s.temporaryVolume s.targetPath flag info.spec).forceUpdate
          = info.spec.forceUpdate + 1) := by
  refine ⟨?_, ?_, ?_⟩
  · unfold updateTargetService
    rw [h]
    simp only
    by_cases hh : (splitTempMounts s.temporaryVolume info.spec.mounts).2 = true <;>
      rcases getContainerId_trace env s with ht | ⟨t, ht⟩ <;>
      cases env.serviceUpdate s.target info.version
        (updatedServiceSpec s.temporaryVolume s.targetPath flag info.spec) <;>
      simp [hh, ht, serviceUpdateSpecs]
  · cases flag <;> simp [updatedServiceSpec]
  · intro hlt
    cases flag <;> simp [updatedServiceSpec, Nat.mod_eq_of_lt hlt]

/-- Witness for the amended C8 at a concrete input: `okEnv` reports
force-update counter 7, the submitted spec carries `(7 + 1) % 2 ^ 64 = 8`,
and the non-wrapping hypothesis holds. -/
theorem forceUpdate_incremented_mod_uint64_witness :
    okEnv.serviceInspect sServiceRestart.target
      = .ok { version := 5, spec := { forceUpdate := 7, mounts := [] } }
    ∧ (7 : Nat) + 1 < uint64Size
    ∧ (serviceUpdateSpecs (updateTargetService okEnv sServiceRestart true).1
        = [updatedServiceSpec "vol" "/app" true { forceUpdate := 7, mounts := [] }]
      ∧ (updatedServiceSpec "vol" "/app" true { forceUpdate := 7, mounts := [] }).forceUpdate
        = (7 + 1) % uint64Size
      ∧ ((7 : Nat) + 1 < uint64Size →
          (updatedServiceSpec "vol" "/app" true
              { forceUpdate := 7, mounts := [] }).forceUpdate
            = 7 + 1)) :=
  ⟨rfl, by simp [uint64Size],
    forceUpdate_incremented_mod_uint64 okEnv sServiceRestart true _ rfl⟩

/-! ## C2: resolution is service-first -/

theorem findTargetService_no_containerList (env : DockerEnv) (s : Syncer) :
    ∀ c ∈ (findTargetService env s).1, isContainerListCall c = false := by
  unfold findTargetService findServiceById findServiceByName
  cases env.serviceList "id" s.target with
  | error e => simp [isContainerListCall]
  | ok l =>
    cases l with
    | nil => simp [isContainerListCall]
    | cons a as =>
      simp only
      split <;> simp [isContainerListCall]

/-- C2.  For every daemon state, the resolution phase of `Init` is
service-first: whenever the service lookup succeeds with a match, the
target is resolved as that Service and no container listing is ever
issued (so an identifier matching both a service and a container resolves
to the Service); and when neither the service nor the container lookup
matches, `Init` fails with the resolution error. -/
theorem init_resolves_service_first (env : DockerEnv) (s : Syncer) :
    (∀ svc, (findTargetService env s).2 = .ok svc → svc ≠ "" →
        (initResolveTarget env s).2 = .ok { s with targetType := .Service, target := svc }
        ∧ ∀ c ∈ (initResolveTarget env s).1, isContainerListCall c = false)
    ∧ ((findTargetService env s).2 = .ok "" → (findTargetContainer env s).2 = .ok "" →
        (initResolveTarget env s).2
          = .error ("failed to find container or service " ++ s.target)) := by
  constructor
  · intro svc hs hne
    constructor
    · simp only [initResolveTarget]
      rw [hs]
      simp [hne]
    · simp only [initResolveTarget]
      rw [hs]
      simp only [hne, if_neg]
      intro c hc
      exact findTargetService_no_containerList env s c (by simpa [hne] using hc)
  · intro hs hc
    simp only [initResolveTarget]
    rw [hs]
    simp only [if_pos rfl]
    rw [hc]
    simp

/-- Witness for C2 at a concrete input: under `okEnv` both a service
(`s1`) and a container (`c1`) match the identifier, and resolution picks
the Service without listing containers. -/
theorem init_resolves_service_first_witness :
    (initResolveTarget okEnv sContainerPlain).2
      = .ok { sContainerPlain with targetType := .Service, target := "s1" }
    ∧ ∀ c ∈ (initResolveTarget okEnv sContainerPlain).1, isContainerListCall c = false :=
  (init_resolves_service_first okEnv sContainerPlain).1 "s1" rfl (by decide)

/-! ## C3: a failed copy aborts the cycle before any restart -/

theorem findTargetContainer_no_restart (env : DockerEnv) (s : Syncer) :
    ∀ c ∈ (findTargetContainer env s).1, isRestartCall c = false := by
  unfold findTargetContainer findContainerById findContainerByName
  cases env.containerList "id" s.target with
  | error e => simp [isRestartCall]
  | ok l =>
    cases l with
    | nil =>
      simp only
      cases env.containerList "name" s.target with
      | error e => simp [isRestartCall]
      | ok l₂ => cases l₂ <;> simp [isRestartCall]
    | cons a as =>
      simp only
      split
      · simp [isRestartCall]
      · cases env.containerList "name" s.target with
        | error e => simp [isRestartCall]
        | ok l₂ => cases l₂ <;> simp [isRestartCall]

/-- C3.  On both restart-enabled paths of `Copy` (Container+restart and
Service+restart), when the copy step fails its error is returned (the copy
failure is the suffix of the reported message) and no restart-related call
(container stop/create/start or service update) is ever issued: the
restart happens only after a successful copy. -/
theorem failed_copy_aborts_before_restart (env : DockerEnv) (s : Syncer) (e : String)
    (hre : s.restartTarget = true)
    (hfind : s.targetType = .Container → ∃ c, (findTargetContainer env s).2 = .ok c)
    (hcopy : ∀ c p, env.copyTo c p = .error e) :
    (∃ msg, (Copy env s).2.1 = .error (msg ++ e))
    ∧ ∀ c ∈ (Copy env s).1, isRestartCall c = false := by
  cases htt : s.targetType with
  | Container =>
    obtain ⟨c, hc⟩ := hfind htt
    simp only [Copy, htt, hre]
    rw [hc]
    simp only [copyToContainerCall]
    rw [hcopy c s.targetPath]
    simp only
    constructor
    · exact ⟨"failed to copy to container " ++ c ++ ": " ++ "failed to copy to container: ",
        by simp [← String.append_assoc]⟩
    · intro d hd
      simp only [List.mem_append, List.mem_singleton] at hd
      rcases hd with hd | hd
      · exact findTargetContainer_no_restart env s d hd
      · simp [hd, isRestartCall]
  | Service =>
    simp only [Copy, htt, hre]
    simp only [copyToContainerCall]
    rw [hcopy s.temporaryContainer s.getTemporaryVolumePath]
    simp only
    constructor
    · exact ⟨"failed to copy to temporary container " ++ s.temporaryContainer ++ ": "
          ++ "failed to copy to container: ",
        by simp [← String.append_assoc]⟩
    · intro d hd
      simp only [List.mem_singleton] at hd
      simp [hd, isRestartCall]

/-- Witness for C3 at a concrete input: a Container+restart syncer whose
daemon fails every copy with `boom`. -/
theorem failed_copy_aborts_before_restart_witness :
    (∃ msg, (Copy { okEnv with copyTo := fun _ _ => .error "boom" } sContainerRestart).2.1
        = .error (msg ++ "boom"))
    ∧ ∀ c ∈ (Copy { okEnv with copyTo := fun _ _ => .error "boom" } sContainerRestart).1,
        isRestartCall c = false :=
  failed_copy_aborts_before_restart { okEnv with copyTo := fun _ _ => .error "boom" }
    sContainerRestart "boom" rfl (fun _ => ⟨"c1", rfl⟩) (fun _ _ => rfl)

/-! ## C4: a burst on one path is coalesced into exactly one event -/

theorem debouncedNotifs_burst (interval : Nat) (p : String) :
    ∀ (notifs : List Notif) (h : notifs ≠ []),
      (∀ n ∈ notifs, n.name = p) →
      List.Chain' (fun a b => b.time < a.time + interval) notifs →
      debouncedNotifs interval notifs = [notifs.getLast h]
  | [], h, _, _ => absurd rfl h
  | [n], _, _, _ => by
      simp [debouncedNotifs, firesUncontested]
  | n :: m :: rest, _, hn, hc => by
      obtain ⟨hrel, hc'⟩ := List.chain'_cons.1 hc
      have hnames : m.name = n.name := by
        rw [hn m (by simp), hn n (by simp)]
      have hcontested : firesUncontested interval n (m :: rest) = false := by
        apply List.all_eq_false.2
        refine ⟨m, by simp, ?_⟩
        simp [hnames]
        omega
      rw [debouncedNotifs, if_neg (by simp [hcontested])]
      rw [debouncedNotifs_burst interval p (m :: rest) (by simp)
        (fun x hx => hn x (by simp [hx])) hc']
      exact congrArg (fun z => [z]) (List.getLast_cons (by simp : m :: rest ≠ [])).symm

/-- A Write notification on `x.txt` at time `t`. -/
def wNotif (t : Nat) : Notif :=
  ⟨t, "x.txt", ⟨false, true, false, false⟩⟩

/-- A Rename notification on `x.txt` at time 90, closing an atomic-save
style burst. -/
def renameNotif : Notif :=
  ⟨90, "x.txt", ⟨false, false, false, true⟩⟩

/-- C4 counterexample.  A burst does NOT always yield exactly one emitted
event: when the final notification's `stat` fails (the path already
vanished), the firing produces an error on the error stream and ZERO
events, so a burst of two Write notifications 50 ms apart on a vanished
path emits no event at all. -/
theorem burst_zero_events_cex :
    watchOutputs debounceInterval (fun _ => .error "vanished") [wNotif 0, wNotif 50]
      = [.fsError "vanished"]
    ∧ WatchOutput.event (wNotif 50)
        ∉ watchOutputs debounceInterval (fun _ => .error "vanished") [wNotif 0, wNotif 50]
    ∧ WatchOutput.event (wNotif 0)
        ∉ watchOutputs debounceInterval (fun _ => .error "vanished") [wNotif 0, wNotif 50] := by
  decide

/-- C4 amended.  For every burst of `K ≥ 1` notifications on the same
path, each arriving strictly within the debounce window of its
predecessor, exactly one debounce timer firing survives — the final
notification's — once the window elapses with no further notification:
every earlier notification's timer is stopped by its successor, so the
burst's entire output is `processEvent` of the final notification (at most
one entry).  Exactly one event is emitted for the path whenever that final
notification is a Remove, or stats as a file and carries Create, Write or
Rename; a stat failure or a directory yields no event for the burst. -/
theorem burst_emits_at_most_one_event (interval : Nat) (p : String)
    (statF : String → Res FileKind) (notifs : List Notif) (h : notifs ≠ [])
    (hn : ∀ n ∈ notifs, n.name = p)
    (hc : List.Chain' (fun a b => b.time < a.time + interval) notifs) :
    watchOutputs interval statF notifs = (processEvent statF (notifs.getLast h)).toList
    ∧ ((notifs.getLast h).op.remove = true
        ∨ (statF p = .ok .file
          ∧ ((notifs.getLast h).op.create ∨ (notifs.getLast h).op.write
              ∨ (notifs.getLast h).op.rename)) →
        watchOutputs interval statF notifs = [.event (notifs.getLast h)]) := by
  have hd := debouncedNotifs_burst interval p notifs h hn hc
  have hname : (notifs.getLast h).name = p := hn _ (List.getLast_mem h)
  constructor
  · unfold watchOutputs
    rw [hd]
    cases hpe : processEvent statF (notifs.getLast h) <;> simp [hpe]
  · intro hcase
    unfold watchOutputs
    rw [hd]
    rcases hcase with hr | ⟨hs, hflag⟩
    · simp [processEvent, hr]
    · by_cases hr : (notifs.getLast h).op.remove = true
      · simp [processEvent, hr]
      · rcases hflag with hf | hf | hf <;> simp [processEvent, hr, hname, hs, hf]

/-- Witness for the amended C4 at a concrete input: an atomic-save style
burst (Write, Write, Rename, 50 ms and 40 ms apart) on an existing file
emits exactly the final Rename event. -/
theorem burst_emits_at_most_one_event_witness :
    watchOutputs debounceInterval (fun _ => .ok .file) [wNotif 0, wNotif 50, renameNotif]
      = [.event renameNotif] := by
  have h : [wNotif 0, wNotif 50, renameNotif] ≠ ([] : List Notif) := by simp
  have hmain := burst_emits_at_most_one_event debounceInterval "x.txt"
    (fun _ => .ok .file) [wNotif 0, wNotif 50, renameNotif] h
    (by simp [wNotif, renameNotif])
    (by norm_num [List.chain'_cons, wNotif, renameNotif, debounceInterval])
  exact (hmain.2 (Or.inr ⟨rfl, Or.inr (Or.inr rfl)⟩)).trans rfl

/-! ## C5: Remove notifications and the debounce stage -/

/-- A Remove notification on `f.txt` at time 0. -/
def removeNotif : Notif :=
  ⟨0, "f.txt", ⟨false, false, true, false⟩⟩

/-- A Write notification on `f.txt` at time 50, inside the window. -/
def writeNotif : Notif :=
  ⟨50, "f.txt", ⟨false, true, false, false⟩⟩

/-- C5 counterexample.  A Remove notification is NOT emitted immediately
and does NOT bypass the debounce stage: a Write on the same path arriving
50 ms later (inside the 100 ms window) stops the Remove's timer, so the
Remove is never emitted at all — only the Write's event appears. -/
theorem remove_is_debounced_cex :
    watchOutputs debounceInterval (fun _ => .ok .file) [removeNotif, writeNotif]
      = [.event writeNotif]
    ∧ WatchOutput.event removeNotif
        ∉ watchOutputs debounceInterval (fun _ => .ok .file) [removeNotif, writeNotif] := by
  decide

/-- C5 amended.  Remove notifications pass through the same per-path
debounce stage as every other notification; what a Remove bypasses is only
the stat-based file check: once its debounce timer fires uncontested, the
Remove event is emitted unconditionally, whatever `stat` would report. -/
theorem remove_bypasses_stat_only (interval : Nat) (statF : String → Res FileKind)
    (notifs : List Notif) (n : Notif)
    (hmem : n ∈ debouncedNotifs interval notifs) (hr : n.op.remove = true) :
    WatchOutput.event n ∈ watchOutputs interval statF notifs := by
  unfold watchOutputs
  exact List.mem_filterMap.2 ⟨n, hmem, by simp [processEvent, hr]⟩

/-- Witness for the amended C5: an uncontested Remove is emitted even when
`stat` fails for every path. -/
theorem remove_bypasses_stat_only_witness :
    removeNotif ∈ debouncedNotifs debounceInterval [removeNotif]
    ∧ removeNotif.op.remove = true
    ∧ WatchOutput.event removeNotif
        ∈ watchOutputs debounceInterval (fun _ => .error "vanished") [removeNotif] :=
  ⟨by decide, by decide,
    remove_bypasses_stat_only debounceInterval (fun _ => .error "vanished")
      [removeNotif] removeNotif (by decide) (by decide)⟩

/-! ## C6: tar header names are slash-normalized and rooted at the
destination -/

theorem toSlash_data (sep : Char) (s : String) :
    (toSlash sep s).data = s.data.map (fun c => if c = sep then '/' else c) := rfl

theorem sep_not_mem_toSlash (sep : Char) (hsep : sep ≠ '/') (s : String) :
    sep ∉ (toSlash sep s).data := by
  rw [toSlash_data]
  intro hm
  obtain ⟨c, _, hc⟩ := List.mem_map.1 hm
  by_cases h : c = sep
  · rw [if_pos h] at hc
    exact hsep hc.symm
  · rw [if_neg h] at hc
    exact h hc

theorem toSlash_append (sep : Char) (a b : String) :
    toSlash sep (a ++ b) = toSlash sep a ++ toSlash sep b := by
  apply String.ext
  rw [String.data_append, toSlash_data, toSlash_data, toSlash_data,
    String.data_append, List.map_append]

theorem toSlash_filepathJoin_rooted (sep : Char) (dest rel : String) :
    ∃ rest, toSlash sep (filepathJoin sep dest rel) = toSlash sep dest ++ rest := by
  unfold filepathJoin
  split
  · exact ⟨"", by simp⟩
  · refine ⟨toSlash sep ⟨[sep]⟩ ++ toSlash sep rel, ?_⟩
    rw [toSlash_append, toSlash_append, String.append_assoc]

/-- C6.  Every tar header name produced by `copyToContainer` is
forward-slash normalized (the host separator never survives) and rooted at
the destination path; a single-file source yields exactly one header named
the destination joined with the file's base name, and a directory source
yields one header per walk entry — directories included — named the
destination joined with the entry's path relative to the source root. -/
theorem header_names_slash_rooted (sep : Char) (dest : String) (src : SourceInfo)
    (hsep : sep ≠ '/') :
    (∀ name ∈ copyHeaderNames sep dest src,
        sep ∉ name.data ∧ ∃ rest, name = toSlash sep dest ++ rest)
    ∧ (∀ baseName, copyHeaderNames sep dest (.file baseName)
        = [toSlash sep (filepathJoin sep dest baseName)])
    ∧ ∀ entries, copyHeaderNames sep dest (.dir entries)
        = entries.map (fun e => toSlash sep (filepathJoin sep dest e.relPath)) := by
  refine ⟨?_, fun _ => rfl, fun _ => rfl⟩
  intro name hname
  have hform : ∃ r, name = toSlash sep (filepathJoin sep dest r) := by
    cases src with
    | file b => exact ⟨b, by simpa [copyHeaderNames] using hname⟩
    | dir es =>
      obtain ⟨e, _, he⟩ := List.mem_map.1 (by simpa [copyHeaderNames] using hname)
      exact ⟨e.relPath, he.symm⟩
  obtain ⟨r, rfl⟩ := hform
  exact ⟨sep_not_mem_toSlash sep hsep _, toSlash_filepathJoin_rooted sep dest r⟩

/-- The walk of a directory containing `a.txt` and `sub/b.txt` on a host
whose separator is a backslash. -/
def backslashWalk : SourceInfo :=
  .dir [⟨".", true⟩, ⟨"a.txt", false⟩, ⟨"sub", true⟩, ⟨"sub\\b.txt", false⟩]

/-- Witness for C6 at a concrete input: the backslash-host walk of
`a.txt`, `sub`, `sub\b.txt` synced to `/app`, with the concrete header
names spelled out. -/
theorem header_names_slash_rooted_witness :
    copyHeaderNames '\\' "/app" backslashWalk
      = ["/app", "/app/a.txt", "/app/sub", "/app/sub/b.txt"]
    ∧ (∀ name ∈ copyHeaderNames '\\' "/app" backslashWalk,
        '\\' ∉ name.data ∧ ∃ rest, name = toSlash '\\' "/app" ++ rest)
    ∧ (∀ baseName, copyHeaderNames '\\' "/app" (.file baseName)
        = [toSlash '\\' (filepathJoin '\\' "/app" baseName)])
    ∧ ∀ entries, copyHeaderNames '\\' "/app" (.dir entries)
        = entries.map (fun e => toSlash '\\' (filepathJoin '\\' "/app" e.relPath)) :=
  ⟨by decide, header_names_slash_rooted '\\' "/app" backslashWalk (by decide)⟩

/-! ## C7: container recreation evaluated at a restart cycle

`recreateTargetContainer` rebinds `syncer.target` to the freshly created
container's id *before* issuing `ContainerRemove(ctx, syncer.target, ...)`,
so — although its own log line says "Removing the old container" — the
removal is issued against the NEW container, the stopped old container is
never removed, and the subsequent start targets the container that was
just removed. -/

/-- C7 evaluated at a concrete restart cycle (old container `old`, daemon
creates `new1`): the removal call carries the new id, no call ever removes
`old`, and the start call follows the removal of the same `new1` id. -/
theorem recreate_removes_new_container :
    (recreateTargetContainer okEnv sContainerRestart true).1
      = [.containerInspect "old", .containerStop "old" 10,
          .containerCreate [relayMount "vol" "/app"],
          .containerRemove "new1" false, .containerStart "new1"]
    ∧ (recreateTargetContainer okEnv sContainerRestart true).2.2.target = "new1"
    ∧ DockerCall.containerRemove "old" false
        ∉ (recreateTargetContainer okEnv sContainerRestart true).1
    ∧ DockerCall.containerRemove "old" true
        ∉ (recreateTargetContainer okEnv sContainerRestart true).1 := by
  decide

/-! ## C9: Cleanup error tolerance and idempotence -/

theorem recreate_preserves_temp (env : DockerEnv) (s : Syncer) (b : Bool) :
    ((recreateTargetContainer env s b).2.2).temporaryContainer = s.temporaryContainer
    ∧ ((recreateTargetContainer env s b).2.2).temporaryVolume = s.temporaryVolume := by
  simp only [recreateTargetContainer]
  repeat' split
  all_goals simp

/-- A daemon that reports the tracked temporary container as already gone
when its removal is attempted. -/
def notFoundEnv : DockerEnv :=
  { okEnv with
    containerRemove := fun id _ =>
      if id = "tmpc" then .error ("No such container: " ++ id) else .ok () }

/-- C9 counterexample.  A "not found" removal error DOES make `Cleanup`
fail, and after one fully successful `Cleanup` a subsequent call is NOT a
no-op: it re-runs the target recreation and re-attempts the removals with
the cleared (empty) names. -/
theorem cleanup_not_idempotent_cex :
    (Cleanup notFoundEnv sContainerPlain).2.1
      = .error "failed to remove temporary container tmpc: No such container: tmpc"
    ∧ (Cleanup okEnv sContainerPlain).2.1 = .ok ()
    ∧ DockerCall.containerRemove "" true
        ∈ (Cleanup okEnv (Cleanup okEnv sContainerPlain).2.2).1
    ∧ DockerCall.containerInspect "new1"
        ∈ (Cleanup okEnv (Cleanup okEnv sContainerPlain).2.2).1 :=
  ⟨rfl, rfl, by decide, by decide⟩

theorem recreate_trace_ne_nil (env : DockerEnv) (s : Syncer) (b : Bool) :
    (recreateTargetContainer env s b).1 ≠ [] := by
  simp only [recreateTargetContainer]
  repeat' split
  all_goals simp

theorem update_trace_ne_nil (env : DockerEnv) (s : Syncer) (b : Bool) :
    (updateTargetService env s b).1 ≠ [] := by
  simp only [updateTargetService]
  repeat' split
  all_goals simp

theorem cleanup_trace_ne_nil (env : DockerEnv) (s : Syncer) :
    (Cleanup env s).1 ≠ [] := by
  simp only [Cleanup]
  repeat' split
  all_goals
    simp_all [List.append_eq_nil, recreate_trace_ne_nil, update_trace_ne_nil]

/-- C9 amended.  `Cleanup` propagates removal errors — a removal failure
for the tracked temporary container, including a "not found" response,
makes `Cleanup` return that error — and `Cleanup` is never a no-op: every
call (in particular any call after a previous successful one) issues
Docker API calls, starting with the target recreation/update. -/
theorem cleanup_propagates_removal_error (env : DockerEnv) (s : Syncer) (e : String)
    (hct : s.targetType = .Container)
    (hok : (recreateTargetContainer env s false).2.1 = .ok ())
    (hrem : env.containerRemove s.temporaryContainer true = .error e) :
    (∃ msg, (Cleanup env s).2.1 = .error (msg ++ e))
    ∧ ∀ (env' : DockerEnv) (s' : Syncer), (Cleanup env' s').1 ≠ [] := by
  refine ⟨?_, fun env' s' => cleanup_trace_ne_nil env' s'⟩
  simp only [Cleanup, hct, reduceIte, hok]
  rw [(recreate_preserves_temp env s false).1]
  simp only [hrem]
  exact ⟨"failed to remove temporary container " ++ s.temporaryContainer ++ ": ",
    by simp [← String.append_assoc]⟩

/-- Witness for the amended C9 at a concrete input: the `notFoundEnv`
daemon makes the concrete Cleanup fail with the wrapped not-found error. -/
theorem cleanup_propagates_removal_error_witness :
    (recreateTargetContainer notFoundEnv sContainerPlain false).2.1 = .ok ()
    ∧ notFoundEnv.containerRemove sContainerPlain.temporaryContainer true
        = .error "No such container: tmpc"
    ∧ ((∃ msg, (Cleanup notFoundEnv sContainerPlain).2.1
          = .error (msg ++ "No such container: tmpc"))
        ∧ ∀ (env' : DockerEnv) (s' : Syncer), (Cleanup env' s').1 ≠ []) :=
  ⟨rfl, rfl,
    cleanup_propagates_removal_error notFoundEnv sContainerPlain
      "No such container: tmpc" rfl rfl rfl⟩

/-! ## C10: Cleanup always restarts the target before removing anything -/

/-- C10.  Every `Cleanup` call — for every daemon state and every syncer,
independently of the restart flag and of whether temporary resources were
ever created — first performs the full target-container recreation
(Container targets) or the no-volume force-update (Service targets), and
only afterwards attempts the removals: its trace is exactly the
restart-phase trace followed by nothing but the temporary-container and
temporary-volume removal calls.  In particular a plain no-restart
container sync still has its target container recreated on shutdown. -/
theorem cleanup_restarts_target_first (env : DockerEnv) (s : Syncer) :
    ∃ rest,
      (Cleanup env s).1
        = (if s.targetType = .Container then (recreateTargetContainer env s false).1
            else (updateTargetService env s false).1) ++ rest
      ∧ ∀ c ∈ rest,
          c = DockerCall.containerRemove s.temporaryContainer true
          ∨ c = DockerCall.volumeRemove s.temporaryVolume true := by
  have h1 := (recreate_preserves_temp env s false).1
  have h2 := (recreate_preserves_temp env s false).2
  by_cases hct : s.targetType = .Container
  · simp only [Cleanup, hct, reduceIte]
    cases hr : (recreateTargetContainer env s false).2.1 with
    | error e =>
      exact ⟨[], by simp, by simp⟩
    | ok u =>
      cases u
      cases hcr : env.containerRemove
          (recreateTargetContainer env s false).2.2.temporaryContainer true with
      | error e =>
        refine ⟨[DockerCall.containerRemove s.temporaryContainer true], by simp [hcr, h1],
          by simp⟩
      | ok u2 =>
        cases u2
        cases hvr : env.volumeRemove
            (recreateTargetContainer env s false).2.2.temporaryVolume with
        | error e =>
          refine ⟨[DockerCall.containerRemove s.temporaryContainer true,
            DockerCall.volumeRemove s.temporaryVolume true], by simp [hcr, hvr, h1, h2], ?_⟩
          intro c hc
          simp only [List.mem_cons, List.mem_singleton] at hc
          rcases hc with hc | hc | hc
          · exact Or.inl hc
          · exact Or.inr hc
          · exact absurd hc (by simp)
        | ok u3 =>
          cases u3
          refine ⟨[DockerCall.containerRemove s.temporaryContainer true,
            DockerCall.volumeRemove s.temporaryVolume true], by simp [hcr, hvr, h1, h2], ?_⟩
          intro c hc
          simp only [List.mem_cons, List.mem_singleton] at hc
          rcases hc with hc | hc | hc
          · exact Or.inl hc
          · exact Or.inr hc
          · exact absurd hc (by simp)
  · simp only [Cleanup, hct, reduceIte]
    cases hr : (updateTargetService env s false).2 with
    | error e =>
      exact ⟨[], by simp, by simp⟩
    | ok u =>
      cases u
      cases hcr : env.containerRemove s.temporaryContainer true with
      | error e =>
        refine ⟨[DockerCall.containerRemove s.temporaryContainer true], by simp [hcr], by simp⟩
      | ok u2 =>
        cases u2
        cases hvr : env.volumeRemove s.temporaryVolume with
        | error e =>
          refine ⟨[DockerCall.containerRemove s.temporaryContainer true,
            DockerCall.volumeRemove s.temporaryVolume true], by simp [hcr, hvr], ?_⟩
          intro c hc
          simp only [List.mem_cons, List.mem_singleton] at hc
          rcases hc with hc | hc | hc
          · exact Or.inl hc
          · exact Or.inr hc
          · exact absurd hc (by simp)
        | ok u3 =>
          cases u3
          refine ⟨[DockerCall.containerRemove s.temporaryContainer true,
            DockerCall.volumeRemove s.temporaryVolume true], by simp [hcr, hvr], ?_⟩
          intro c hc
          simp only [List.mem_cons, List.mem_singleton] at hc
          rcases hc with hc | hc | hc
          · exact Or.inl hc
          · exact Or.inr hc
          · exact absurd hc (by simp)

/-- Witness for C10 at a concrete input: a plain no-restart container
syncer still has its target recreated first on cleanup. -/
theorem cleanup_restarts_target_first_witness :
    ∃ rest,
      (Cleanup okEnv sContainerPlain).1
        = (if sContainerPlain.targetType = .Container
            then (recreateTargetContainer okEnv sContainerPlain false).1
            else (updateTargetService okEnv sContainerPlain false).1) ++ rest
      ∧ ∀ c ∈ rest,
          c = DockerCall.containerRemove sContainerPlain.temporaryContainer true
          ∨ c = DockerCall.volumeRemove sContainerPlain.temporaryVolume true :=
  cleanup_restarts_target_first okEnv sContainerPlain

end DockerSync
